import Mathlib

set_option maxRecDepth 100000
set_option allowUnsafeReducibility true
attribute [semireducible] Rat.add Rat.mul Rat.div Rat.blt Rat.sub Rat.neg Rat.inv
attribute [semireducible] Rat.normalize Rat.floor Rat.ofScientific

/-!
# Verification of the Dynamic Baseline & Real-Time Diagnosis Engine

Shallow embedding of `src/baseline/dynamic_baseline_engine.py`
(class `RealDataDynamicBaseline`) and proofs about it.

Modelling conventions:
* pandas numeric cells become `Option ℚ` (`none` = NaN / missing / non-numeric);
* a row of the cleaned DataFrame becomes a `Record` (fields `日期`/`星期几`/`小时`
  plus the metric columns as a function `String → Option ℚ`);
* the dict-of-dicts `baseline_table` is built, as in the source, as an
  association list keyed by the (weekday, hour) bucket, with the per-bucket
  metric means as an inner association list; it is consumed through
  `baselineAt`, the denotation of `self.baseline_table[key][indicator]`;
* python `round(x, 2)` is modelled by `round2` (rounding mode differences on
  exact ties do not matter for any statement below);
* display-only string formatting (`f"{x:.0f}"`, percent formatting of the
  success rate and of `标准进度`) is represented by the underlying numbers;
* the wall-clock fields (`诊断时间`, `last_update`) are carried as an abstract
  `Nat` or omitted, since no claim depends on real time.
-/

/-- The column-name alias map `self.column_mapping` of the source. -/
def column_mapping : List (String × String) :=
  [("时间段", "小时"),
   ("整体GPM", "GPM"),
   ("商品-曝光人数", "商品曝光人数"),
   ("商品-点击人数", "商品点击人数"),
   ("商品曝光-点击率", "商品点击率"),
   ("直播间曝光-进入率", "曝光进入率"),
   ("商品点击-转化率", "点击转化率"),
   ("退货订单金额", "退款金额"),
   ("大瓶GMV", "大瓶装订单数"),
   ("三瓶GMV", "三瓶装订单数"),
   ("平均在线人数", "平均在线"),
   ("直播间曝光量", "直播间曝光次数"),
   ("广告ROI", "实际ROI"),
   ("广告GMV", "整体GSV"),
   ("停留时长", "人均观看时长"),
   ("优惠券", "智能优惠劵金额"),
   ("观看-成交率", "整体uv价值"),
   ("内容互动人数", "直播间进入人数"),
   ("新增粉丝团人数", "成交人数_1"),
   ("直播间评论数", "在线峰值"),
   ("退货订单数", "成交件数"),
   ("成交订单成本", "引流成本")]

/-- `self.column_mapping.get(name, name)`: canonical name of a column. -/
def map_col (c : String) : String := (column_mapping.lookup c).getD c

/-- `self.absolute_indicators`: the additive (dynamically evaluated) metrics. -/
def absolute_indicators : List String :=
  ["消耗", "整体GMV", "智能优惠劵金额", "退款金额", "整体GSV", "成交人数",
   "成交件数", "直播间曝光次数", "直播间曝光人数", "直播间进入人数",
   "直播间观看次数", "在线峰值", "平均在线", "引流成本", "转化成本",
   "整体uv价值", "GPM", "人均观看时长", "观看人数", "商品曝光人数",
   "商品点击人数", "画面-消耗", "画面-gmv", "画面-曝光数", "画面-点击数",
   "画面-转化数", "视频-消耗", "视频-gmv", "视频-曝光数", "视频-点击数",
   "视频-转化数", "调控消耗", "调控GMV", "调控成交订单数"]

/-- `self.ratio_indicators`: the ratio (traditionally evaluated) metrics. -/
def ratio_indicators : List String :=
  ["整体ROI", "实际ROI", "客单价", "曝光进入率", "商品-曝光率",
   "商品点击率", "点击转化率", "画面-roi", "画面-消耗占比",
   "画面-CTR", "画面-CVR", "视频-roi", "视频-消耗占比",
   "视频-CTR", "视频-CVR", "调控ROI", "调控-消耗占比"]

/-- `all_indicators = self.absolute_indicators + self.ratio_indicators`. -/
def all_indicators : List String := absolute_indicators ++ ratio_indicators

/-- `required_fields = ["日期", "小时", "主播"]` of `_preprocess_data`. -/
def required_fields : List String := ["日期", "小时", "主播"]

/-- `key_financial_metrics = ['消耗', '整体GMV']` of `_preprocess_data`. -/
def key_financial_metrics : List String := ["消耗", "整体GMV"]

/-- The administrative keys skipped by the loop of `real_time_diagnosis`. -/
def structural_keys : List String := ["星期几", "小时", "主播", "场控", "日期", "场次"]

/-- `pandas.Timestamp.dayofweek` on an epoch-day count (1970-01-01 was a
Thursday, weekday index 3; 0 = Monday … 6 = Sunday). -/
def dayofweek (d : Nat) : Nat := (d + 3) % 7

/-- One row of the cleaned historical DataFrame: columns `日期` (as an
epoch-day count), `星期几`, `小时`, and the metric cells. -/
structure Record where
  date : Nat
  weekday : Nat
  hour : Nat
  metrics : String → Option ℚ

/-- A raw input row before cleaning.  `date`/`hour` carry the outcome of the
source's date parsing (`pd.to_datetime`) and digit-extraction of the hour
(`none` when unparseable); `cells` carries the metric cells after the
`-`→NaN replacement and numeric coercion, indexed by canonical column name. -/
structure RawRow where
  date : Option Nat
  hour : Option Nat
  cells : String → Option ℚ

/-- A raw input table: its column names (pre-rename) and its rows. -/
structure RawTable where
  cols : List String
  rows : List RawRow

/-- The row-validity test of `_preprocess_data` steps 4-5: both key financial
metrics must be non-null and non-zero. -/
def key_financial_ok (metrics : String → Option ℚ) : Bool :=
  key_financial_metrics.all fun m =>
    match metrics m with
    | some q => !(q == 0)
    | none => false

/-- `_preprocess_data`: rename columns, require the three structural fields,
drop rows with unparseable date or hour, derive the weekday, and drop rows
whose key financial metrics are null or zero. -/
def preprocess_data (t : RawTable) : List Record :=
  if required_fields.all (fun f => (t.cols.map map_col).contains f) then
    ((t.rows.filterMap fun r =>
        match r.date, r.hour with
        | some dt, some hh =>
          some { date := dt, weekday := dayofweek dt, hour := hh, metrics := r.cells }
        | _, _ => none).filter fun rec => key_financial_ok rec.metrics)
  else []

/-- The rows of the data pool falling in the (weekday, hour) bucket:
`(df["星期几"] == day) & (df["小时"] == hour)` of `_calculate_baseline`. -/
def bucket_subset (pool : List Record) (day hour : Nat) : List Record :=
  pool.filter fun r => r.weekday == day && r.hour == hour

/-- The valid (non-null) values of a metric over some rows:
`pd.to_numeric(subset[indicator], errors='coerce').dropna()`. -/
def valid_values (rows : List Record) (ind : String) : List ℚ :=
  rows.filterMap fun r => r.metrics ind

/-- Arithmetic mean of a list (`Series.mean` over a non-empty series). -/
def list_mean (l : List ℚ) : ℚ := l.sum / l.length

/-- The mean of one indicator over one bucket, absent when no row has a valid
value (`if not valid_series.empty: baseline_values[indicator] = ...mean()`). -/
def indicator_mean (rows : List Record) (ind : String) : Option ℚ :=
  let valid := valid_values rows ind
  if valid.isEmpty then none else some (list_mean valid)

/-- The `baseline_values` dict computed for one bucket. -/
def bucket_baselines (rows : List Record) : List (String × ℚ) :=
  all_indicators.filterMap fun ind => (indicator_mean rows ind).map fun v => (ind, v)

/-- The bucket keys visited by `_calculate_baseline` in iteration order:
`for day in range(7): for hour in range(24)`. -/
def all_buckets : List (Nat × Nat) :=
  (List.range 7).flatMap fun day => (List.range 24).map fun hour => (day, hour)

/-- The table entry computed by `_calculate_baseline` for one bucket, absent
when the bucket has no rows or the `baseline_values` dict stays empty. -/
def bucket_baseline_values (pool : List Record) (p : Nat × Nat) :
    Option (List (String × ℚ)) :=
  let subset := bucket_subset pool p.1 p.2
  if subset.isEmpty then none
  else
    let baseline_values := bucket_baselines subset
    if baseline_values.isEmpty then none else some baseline_values

/-- `_calculate_baseline`: the `self.baseline_table` dict as an association
list over the bucket keys, in the source's insertion order. -/
def calculate_baseline (pool : List Record) : List ((Nat × Nat) × List (String × ℚ)) :=
  all_buckets.filterMap fun p => (bucket_baseline_values pool p).map fun bv => (p, bv)

/-- Denotation of `self.baseline_table[f"{day}_{hour}"][indicator]` (with
absent keys reading as `none`). -/
def baselineAt (tbl : List ((Nat × Nat) × List (String × ℚ)))
    (day hour : Nat) (ind : String) : Option ℚ :=
  (tbl.lookup (day, hour)).bind fun bv => bv.lookup ind

/-- The type both lookup tables are consumed at: bucket and metric to an
optional value. -/
abbrev MetricTable := Nat → Nat → String → Option ℚ

/-- The distinct dates of the data pool (`df.groupby("日期")` keys; order is
irrelevant to every statement below). -/
def pool_dates (pool : List Record) : List Nat := (pool.map (fun r => r.date)).dedup

/-- `day_df`: the rows of one calendar day. -/
def day_rows (pool : List Record) (dt : Nat) : List Record :=
  pool.filter fun r => r.date == dt

/-- `daily_totals[indicator]`: the day's total of one additive metric
(`pd.to_numeric(day_df[indicator], errors='coerce').sum()`, NaN skipped). -/
def daily_total (rows : List Record) (ind : String) : ℚ :=
  (valid_values rows ind).sum

/-- The cumulative sum up to and including an hour:
`pd.to_numeric(day_df[day_df["小时"] <= hour][indicator], errors='coerce').sum()`. -/
def cumulative_to (rows : List Record) (ind : String) (hh : Nat) : ℚ :=
  (valid_values (rows.filter fun r => r.hour ≤ hh) ind).sum

/-- The progress fractions appended to `daily_progress[f"{day}_{hour}"][ind]`
across all days: one fraction per row in the bucket of a day whose total for
the metric is positive. -/
def progress_samples (pool : List Record) (day hour : Nat) (ind : String) : List ℚ :=
  (pool_dates pool).flatMap fun dt =>
    let rows := day_rows pool dt
    (rows.filter fun r => r.weekday == day && r.hour == hour).filterMap fun r =>
      if 0 < daily_total rows ind then
        some (cumulative_to rows ind r.hour / daily_total rows ind)
      else none

/-- `_calculate_standard_progress_table` read at one (bucket, metric): the
mean of the collected fractions, absent when none were collected.  Only the
`absolute_indicators` are iterated. -/
def standard_progress_at (pool : List Record) (day hour : Nat) (ind : String) : Option ℚ :=
  if ind ∈ absolute_indicators then
    (if progress_samples pool day hour ind = [] then none
     else some (list_mean (progress_samples pool day hour ind)))
  else none

/-- Python `round(x, 2)` on the reported coefficient and baseline, modelled
as round-half-up (no statement below sits on a rounding tie). -/
def round2 (q : ℚ) : ℚ := (Rat.floor (q * 100 + 1/2) : ℚ) / 100

/-- Python `standard_progress or 0.5`: `None` and `0.0` both fall back. -/
def py_or_half (sp : Option ℚ) : ℚ :=
  match sp with
  | some p => if p == 0 then 1/2 else p
  | none => 1/2

/-- The grade ladder of `_dynamic_evaluation` (lines 577-584). -/
def dyn_level (c : ℚ) : String :=
  if c ≥ 1.5 then "优秀" else if c ≥ 1.2 then "良好"
  else if c ≥ 0.8 then "正常" else "需改进"

/-- The grade ladder of `_traditional_evaluation` (lines 678-685). -/
def trad_level (c : ℚ) : String :=
  if c ≥ 1.2 then "优秀" else if c ≥ 1.1 then "良好"
  else if c ≥ 0.9 then "正常" else "需改进"

/-- The `动态详情` sub-dict of a dynamic evaluation result; fields are the
keys `标准进度`, `基线值` (`none` = `"无"`), `实际值`, `回退方法` (display
formatting of the values is represented by the numbers themselves). -/
structure DynamicDetail where
  std_progress : ℚ
  baseline_val : Option ℚ
  actual_val : ℚ
  fallback_method : String
deriving DecidableEq

/-- A per-metric evaluation result: `coefficient`/`level`/`method` are the
shared keys `系数`/`评估`/`评估方法`, `baseline_val` is the `基线值` key of
traditional results (`none` = `"无"`), and `detail` is the `动态详情`
sub-dict of dynamic results. -/
structure EvalResult where
  coefficient : ℚ
  level : String
  method : String
  baseline_val : Option ℚ
  detail : Option DynamicDetail
deriving DecidableEq

/-- The degraded result of `_dynamic_evaluation` when no baseline was found
but the observed value is positive. -/
def insufficient_dynamic (value : ℚ) : EvalResult :=
  { coefficient := 1, level := "数据不足", method := "基础评估(无基线数据)",
    baseline_val := none,
    detail := some { std_progress := 1/2, baseline_val := none,
                     actual_val := value, fallback_method := "无基线数据" } }

/-- The degraded result of `_traditional_evaluation` when no baseline was
found but the observed value is positive. -/
def insufficient_traditional : EvalResult :=
  { coefficient := 1, level := "数据不足", method := "基础评估(无基线数据)",
    baseline_val := none, detail := none }

/-- All positive baseline values of one metric across the whole table: the
`all_values` list of fallback tier 4 (the dict keys of a built table range
over the 7×24 buckets). -/
def global_positive_baselines (bt : MetricTable) (ind : String) : List ℚ :=
  (List.range 7).flatMap fun day => (List.range 24).filterMap fun hour =>
    (bt day hour ind).bind fun v => if 0 < v then some v else none

/-- The fallback ladder of `_dynamic_evaluation` (lines 528-566): tiers 1-3
accept the first *present* entry whatever its sign; tier 4 averages the
positive entries.  Returns the baseline, the standard-progress lookup and the
`fallback_method` label. -/
def dynamic_resolve (bt pt : MetricTable) (ind : String) (day hour : Nat) :
    Option (ℚ × Option ℚ × String) :=
  match bt day hour ind with
  | some b => some (b, pt day hour ind, "精确匹配")
  | none =>
    match (List.range 7).findSome? (fun td =>
        (bt td hour ind).map fun b =>
          (b, pt td hour ind, "同时段回退(星期" ++ toString (td + 1) ++ ")")) with
    | some r => some r
    | none =>
      match (List.range 24).findSome? (fun th =>
          (bt day th ind).map fun b =>
            (b, pt day th ind, "同日回退(" ++ toString th ++ ":00)")) with
      | some r => some r
      | none =>
        let all_values := global_positive_baselines bt ind
        if all_values.isEmpty then none
        else some (all_values.sum / all_values.length, some (1/2),
                   "全局平均(" ++ toString all_values.length ++ "个样本)")

/-- `_dynamic_evaluation`: resolve a baseline through the ladder, grade when
it is positive, degrade to `数据不足` when not but the value is positive. -/
def dynamic_evaluation (bt pt : MetricTable) (ind : String) (value : ℚ)
    (day hour : Nat) : Option EvalResult :=
  match dynamic_resolve bt pt ind day hour with
  | some (b, sp, fm) =>
    if 0 < b then
      some { coefficient := round2 (value / b), level := dyn_level (value / b),
             method := "动态评估(" ++ fm ++ ")", baseline_val := none,
             detail := some { std_progress := py_or_half sp, baseline_val := some b,
                              actual_val := value, fallback_method := fm } }
    else if 0 < value then some (insufficient_dynamic value) else none
  | none => if 0 < value then some (insufficient_dynamic value) else none

/-- The fallback ladder of `_traditional_evaluation` (lines 621-665): a
non-positive tier-1 hit does not stop the ladder, tiers 2-3 skip non-positive
entries, and when everything fails a ratio metric's baseline defaults to 1.
Returns `(baseline_value, fallback_method)` as left by the four steps. -/
def traditional_resolve (bt : MetricTable) (ind : String) (day hour : Nat) :
    Option ℚ × String :=
  let s1 : Option ℚ × String :=
    match bt day hour ind with
    | some b => (some b, "精确匹配")
    | none => (none, "")
  let nonpos : Option ℚ → Bool := fun o =>
    match o with
    | some b => b ≤ 0
    | none => true
  let s2 : Option ℚ × String :=
    if nonpos s1.1 then
      match (List.range 7).findSome? (fun td =>
          (bt td hour ind).bind fun tv =>
            if 0 < tv then
              some (tv, "同时段回退(星期" ++ toString (td + 1) ++ ")")
            else none) with
      | some (b, fm) => (some b, fm)
      | none => s1
    else s1
  let s3 : Option ℚ × String :=
    if nonpos s2.1 then
      match (List.range 24).findSome? (fun th =>
          (bt day th ind).bind fun tv =>
            if 0 < tv then
              some (tv, "同日回退(" ++ toString th ++ ":00)")
            else none) with
      | some (b, fm) => (some b, fm)
      | none => s2
    else s2
  if nonpos s3.1 then
    let all_values := global_positive_baselines bt ind
    if !all_values.isEmpty then
      (some (all_values.sum / all_values.length),
       "全局平均(" ++ toString all_values.length ++ "个样本)")
    else if ind ∈ ratio_indicators then (some 1, "默认基线值")
    else s3
  else s3

/-- `_traditional_evaluation`: resolve through the ladder, grade when the
baseline is positive, degrade to `数据不足` when not but the value is
positive. -/
def traditional_evaluation (bt : MetricTable) (ind : String) (value : ℚ)
    (day hour : Nat) : Option EvalResult :=
  match traditional_resolve bt ind day hour with
  | (some b, fm) =>
    if 0 < b then
      some { coefficient := round2 (value / b), level := trad_level (value / b),
             method := "传统评估(" ++ fm ++ ")", baseline_val := some (round2 b),
             detail := none }
    else if 0 < value then some insufficient_traditional else none
  | (none, _) => if 0 < value then some insufficient_traditional else none

/-- A metric value as supplied in a diagnosis query: absent/empty string
(`数值为空`), a value `float()` rejects (`数值格式错误`), or a number. -/
inductive QVal
| qEmpty
| qBad
| qNum (q : ℚ)
deriving DecidableEq

/-- The four accumulators of the per-metric loop of `real_time_diagnosis`:
`results`, `dynamic_indicators`, `traditional_indicators`,
`skipped_indicators`. -/
structure DiagAcc where
  results : List (String × EvalResult)
  dyn : List String
  trad : List String
  skipped : List String
deriving DecidableEq

/-- One iteration of the per-metric loop of `real_time_diagnosis` (lines
441-479): skip structural keys, skip empty or malformed values, alias-map the
name, classify and evaluate, or record the metric as unclassified. -/
def diag_step (bt pt : MetricTable) (day hour : Nat) (indicator : String)
    (v : QVal) (acc : DiagAcc) : DiagAcc :=
  if structural_keys.contains indicator then acc
  else
    match v with
    | QVal.qEmpty => { acc with skipped := (indicator ++ " (数值为空)") :: acc.skipped }
    | QVal.qBad => { acc with skipped := (indicator ++ " (数值格式错误)") :: acc.skipped }
    | QVal.qNum value =>
      let mapped := map_col indicator
      if mapped ∈ absolute_indicators then
        match dynamic_evaluation bt pt mapped value day hour with
        | some r => { acc with results := (indicator, r) :: acc.results,
                               dyn := indicator :: acc.dyn }
        | none => { acc with skipped := (indicator ++ " (动态评估失败)") :: acc.skipped }
      else if mapped ∈ ratio_indicators then
        match traditional_evaluation bt mapped value day hour with
        | some r => { acc with results := (indicator, r) :: acc.results,
                               trad := indicator :: acc.trad }
        | none => { acc with skipped := (indicator ++ " (传统评估失败)") :: acc.skipped }
      else { acc with skipped := (indicator ++ " (未在配置中分类)") :: acc.skipped }

/-- The per-metric loop of `real_time_diagnosis`, processing the query items
in order. -/
def diagnosis_loop (bt pt : MetricTable) (day hour : Nat) :
    List (String × QVal) → DiagAcc
  | [] => { results := [], dyn := [], trad := [], skipped := [] }
  | (indicator, v) :: rest =>
    diag_step bt pt day hour indicator v (diagnosis_loop bt pt day hour rest)

/-- `input_indicators`: every query key that is not a structural key. -/
def input_indicators (query : List (String × QVal)) : List String :=
  (query.filter fun p => !structural_keys.contains p.1).map fun p => p.1

/-- The engine state: `self.data_pool`, `self.baseline_table`,
`self.standard_progress_table`, `self.is_initialized` (the two tables read
through their lookup denotations). -/
structure EngineState where
  data_pool : List Record
  baseline_table : MetricTable
  standard_progress_table : MetricTable
  is_initialized : Bool

/-- The `输入统计` / `指标分类` / `评估结果` parts of a diagnosis response
(the percent-formatted `评估成功率` is carried as the underlying ratio, the
wall-clock `诊断时间` is omitted). -/
structure DiagnosisResult where
  total_input : Nat
  evaluated : Nat
  skipped_count : Nat
  success_rate : ℚ
  dynamic_inds : List String
  traditional_inds : List String
  skipped_inds : List String
  results : List (String × EvalResult)
deriving DecidableEq

/-- A diagnosis response: either the `{"error": ...}` dict or a result. -/
inductive DiagOutcome
| error (msg : String)
| ok (r : DiagnosisResult)
deriving DecidableEq

/-- `real_time_diagnosis`: refuse when uninitialized, else run the per-metric
loop and assemble the statistics (`day`/`hour` stand for the bucket already
extracted from the query by the source's query preprocessing). -/
def real_time_diagnosis (e : EngineState) (day hour : Nat)
    (query : List (String × QVal)) : DiagOutcome :=
  if e.is_initialized then
    let acc := diagnosis_loop e.baseline_table e.standard_progress_table day hour query
    let inputs := input_indicators query
    let total_evaluated := acc.dyn.length + acc.trad.length
    DiagOutcome.ok
      { total_input := inputs.length,
        evaluated := total_evaluated,
        skipped_count := acc.skipped.length,
        success_rate := if inputs.length = 0 then 0
                        else (total_evaluated : ℚ) / (inputs.length : ℚ),
        dynamic_inds := acc.dyn,
        traditional_inds := acc.trad,
        skipped_inds := acc.skipped,
        results := acc.results }
  else DiagOutcome.error "系统未初始化"

/-- The historical input handed to `initialize_system`: either a file pandas
cannot parse at all (the read raises) or a raw table. -/
inductive InitInput
| unparseable
| table (t : RawTable)

/-- `initialize_system`: preprocess, refuse on an unreadable input or an
empty cleaned result, else rebuild the pool and both tables and mark the
engine initialized.  Returns the new state and the boolean result. -/
def initialize_system (e : EngineState) (inp : InitInput) : EngineState × Bool :=
  match inp with
  | InitInput.unparseable => (e, false)
  | InitInput.table t =>
    let cleaned := preprocess_data t
    if cleaned.isEmpty then (e, false)
    else
      ({ data_pool := cleaned,
         baseline_table := baselineAt (calculate_baseline cleaned),
         standard_progress_table := standard_progress_at cleaned,
         is_initialized := true }, true)

/-- A freshly constructed engine before any successful initialization (no
snapshot on disk): empty pool, empty tables, `is_initialized = False`. -/
def fresh_engine : EngineState :=
  { data_pool := [],
    baseline_table := fun _ _ _ => none,
    standard_progress_table := fun _ _ _ => none,
    is_initialized := false }

/-- The pickled snapshot written by `_save_state`: the four state fields plus
`last_update`, each read back by `_load_state` through `.get` with a
default. -/
structure SavedState where
  data_pool : Option (List Record)
  baseline_table : Option MetricTable
  standard_progress_table : Option MetricTable
  is_initialized : Option Bool
  last_update : Nat

/-- `_save_state`: serialize the four state fields (plus a timestamp). -/
def save_state (e : EngineState) (now : Nat) : SavedState :=
  { data_pool := some e.data_pool,
    baseline_table := some e.baseline_table,
    standard_progress_table := some e.standard_progress_table,
    is_initialized := some e.is_initialized,
    last_update := now }

/-- `_load_state`: read each field back with the source's `.get` defaults. -/
def load_state (s : SavedState) : EngineState :=
  { data_pool := s.data_pool.getD [],
    baseline_table := s.baseline_table.getD (fun _ _ _ => none),
    standard_progress_table := s.standard_progress_table.getD (fun _ _ _ => none),
    is_initialized := s.is_initialized.getD false }

/-- Modelled from the spec's fallback-resolver contract (section 4.4): four
tiers in strict order, the first bucket *holding an entry* winning at tiers
1-3, the mean of the positive entries at tier 4; returns the resolved value.
Stated only to be compared with the resolver embedded from the source. -/
def claim_resolve (bt : MetricTable) (ind : String) (day hour : Nat) : Option ℚ :=
  match bt day hour ind with
  | some b => some b
  | none =>
    match (List.range 7).findSome? (fun td => bt td hour ind) with
    | some b => some b
    | none =>
      match (List.range 24).findSome? (fun th => bt day th ind) with
      | some b => some b
      | none =>
        let vs := global_positive_baselines bt ind
        if vs.isEmpty then none else some (vs.sum / vs.length)

/-- The empty baseline/progress table (an engine built from no data). -/
def empty_table : MetricTable := fun _ _ _ => none

/-! ## Shared helper lemmas -/

/-- A successful `findSome?` hit comes from a member of the list. -/
theorem findSome?_some_mem {α β : Type} {l : List α} {f : α → Option β} {b : β}
    (h : l.findSome? f = some b) : ∃ a ∈ l, f a = some b := by
  rcases List.findSome?_eq_some_iff.mp h with ⟨l₁, a, l₂, hl, hfa, _⟩
  exact ⟨a, by simp [hl], hfa⟩

/-- Looking up a key absent from the generators of a `filterMap`-built
association list yields `none`. -/
theorem lookup_filterMap_none {α κ β : Type} [BEq κ] [LawfulBEq κ]
    (l : List α) (key : α → κ) (g : α → Option β) (k : κ)
    (hk : k ∉ l.map key) :
    (l.filterMap fun x => (g x).map fun b => (key x, b)).lookup k = none := by
  induction l with
  | nil => rfl
  | cons z zs ihz =>
    have hkz : ¬ k = key z := fun hkz => hk (by simp [hkz])
    have hkzs : k ∉ zs.map key := fun hmem => hk (by simp [hmem])
    cases hgz : g z with
    | none => simpa [List.filterMap_cons, hgz] using ihz hkzs
    | some b =>
      have hbeq : (k == key z) = false := by simpa using hkz
      simpa [List.filterMap_cons, hgz, List.lookup, hbeq] using ihz hkzs

/-- Looking up the key of a member in a `filterMap`-built association list
whose keys are pairwise distinct recovers exactly the generator's value. -/
theorem lookup_filterMap_keyed {α κ β : Type} [BEq κ] [LawfulBEq κ]
    (l : List α) (key : α → κ) (g : α → Option β) (a : α)
    (hnd : (l.map key).Nodup) (ha : a ∈ l) :
    (l.filterMap fun x => (g x).map fun b => (key x, b)).lookup (key a) = g a := by
  induction l with
  | nil => cases ha
  | cons x xs ih =>
    rw [List.map_cons, List.nodup_cons] at hnd
    rcases List.mem_cons.mp ha with rfl | hmem
    · cases hgx : g a with
      | none =>
        rw [List.filterMap_cons, hgx]
        exact lookup_filterMap_none xs key g (key a) hnd.1
      | some b =>
        simp [List.filterMap_cons, hgx, List.lookup]
    · have hne : ¬ key x = key a := by
        intro hexy
        exact hnd.1 (hexy ▸ List.mem_map_of_mem key hmem)
      have hbeq : (key a == key x) = false := by
        simpa using fun hexy => hne hexy.symm
      cases hgx : g x with
      | none => simpa [List.filterMap_cons, hgx] using ih hnd.2 hmem
      | some b => simpa [List.filterMap_cons, hgx, List.lookup, hbeq] using ih hnd.2 hmem

/-- Sums over sublists of non-negative rationals are monotone (through
`List.Sublist.sum_le_sum`; used for the progress fractions). -/
theorem sum_le_sum_of_sublist {l₁ l₂ : List ℚ} (h : l₁.Sublist l₂)
    (hnn : ∀ a ∈ l₂, 0 ≤ a) : l₁.sum ≤ l₂.sum :=
  List.Sublist.sum_le_sum h hnn

/-- The mean of a non-empty list of values in `[0, 1]` lies in `[0, 1]`. -/
theorem list_mean_mem_unit {l : List ℚ} (hne : l ≠ [])
    (h : ∀ x ∈ l, 0 ≤ x ∧ x ≤ 1) : 0 ≤ list_mean l ∧ list_mean l ≤ 1 := by
  have hlen : 0 < (l.length : ℚ) := by
    have := List.length_pos.mpr hne
    exact_mod_cast this
  have hsum0 : 0 ≤ l.sum := List.sum_nonneg fun x hx => (h x hx).1
  have hsum1 : l.sum ≤ (l.length : ℚ) := by
    have := List.sum_le_card_nsmul l 1 fun x hx => (h x hx).2
    simpa using this
  constructor
  · exact div_nonneg hsum0 hlen.le
  · rw [list_mean, div_le_one hlen]
    exact hsum1

/-- When every stored baseline of a metric is non-positive, tier 4 collects
nothing. -/
theorem global_positive_baselines_nil {bt : MetricTable} {ind : String}
    (h : ∀ d hh b, d < 7 → hh < 24 → bt d hh ind = some b → b ≤ 0) :
    global_positive_baselines bt ind = [] := by
  rw [List.eq_nil_iff_forall_not_mem]
  intro x hx
  rw [global_positive_baselines, List.mem_flatMap] at hx
  rcases hx with ⟨d, hd, hx⟩
  rw [List.mem_filterMap] at hx
  rcases hx with ⟨hh, hhh, hbind⟩
  rcases Option.bind_eq_some.mp hbind with ⟨v, hbt, hif⟩
  rw [List.mem_range] at hd hhh
  have hle := h d hh v hd hhh hbt
  split at hif
  case isTrue hpos => exact absurd hpos (not_lt.mpr hle)
  case isFalse => exact Option.noConfusion hif

/-- Any baseline resolved by the dynamic ladder is either a stored entry of
an in-range bucket or the mean of the (all positive) tier-4 collection. -/
theorem dynamic_resolve_cases {bt pt : MetricTable} {ind : String}
    {day hour : Nat} {b : ℚ} {sp : Option ℚ} {fm : String}
    (hd : day < 7) (hh : hour < 24)
    (h : dynamic_resolve bt pt ind day hour = some (b, sp, fm)) :
    (∃ d h2, d < 7 ∧ h2 < 24 ∧ bt d h2 ind = some b) ∨
      (global_positive_baselines bt ind ≠ [] ∧
        b = (global_positive_baselines bt ind).sum /
            (global_positive_baselines bt ind).length) := by
  rw [dynamic_resolve] at h
  cases h1 : bt day hour ind with
  | some b1 =>
    rw [h1] at h
    exact Or.inl ⟨day, hour, hd, hh, by cases h; exact h1⟩
  | none =>
    rw [h1] at h
    rcases h2 : (List.range 7).findSome? (fun td =>
        (bt td hour ind).map fun b =>
          (b, pt td hour ind, "同时段回退(星期" ++ toString (td + 1) ++ ")")) with _ | r2
    · rw [h2] at h
      rcases h3 : (List.range 24).findSome? (fun th =>
          (bt day th ind).map fun b =>
            (b, pt day th ind, "同日回退(" ++ toString th ++ ":00)")) with _ | r3
      · rw [h3] at h
        by_cases hvs : (global_positive_baselines bt ind).isEmpty
        · rw [if_pos hvs] at h
          exact Option.noConfusion h
        · rw [if_neg hvs] at h
          refine Or.inr ⟨fun hnil => hvs (by simp [hnil]), ?_⟩
          cases h
          rfl
      · rw [h3] at h
        cases h
        rcases findSome?_some_mem h3 with ⟨th, hth, hmap⟩
        rcases Option.map_eq_some'.mp hmap with ⟨b3, hbt3, heq3⟩
        rw [List.mem_range] at hth
        exact Or.inl ⟨day, th, hd, hth, by rw [hbt3]; cases heq3; rfl⟩
    · rw [h2] at h
      cases h
      rcases findSome?_some_mem h2 with ⟨td, htd, hmap⟩
      rcases Option.map_eq_some'.mp hmap with ⟨b2, hbt2, heq2⟩
      rw [List.mem_range] at htd
      exact Or.inl ⟨td, hour, htd, hh, by rw [hbt2]; cases heq2; rfl⟩

/-! ## Claim C4 -/

/-- C4: for every (weekday, hour) bucket and classified metric, the entry of
the built baseline table, when present, is the arithmetic mean of the valid
values of that metric over the pool rows of that bucket, and it is absent
(not zero) when the bucket has no row with a valid value for the metric. -/
theorem baseline_entry_is_bucket_mean (pool : List Record) (day hour : Nat)
    (ind : String) (hd : day < 7) (hh : hour < 24) (hm : ind ∈ all_indicators) :
    baselineAt (calculate_baseline pool) day hour ind =
      (if valid_values (bucket_subset pool day hour) ind = [] then none
       else some ((valid_values (bucket_subset pool day hour) ind).sum /
                  (valid_values (bucket_subset pool day hour) ind).length)) := by
  have hnd : (all_buckets.map (fun p => p)).Nodup := by decide
  have hmem : (day, hour) ∈ all_buckets := by
    rw [all_buckets, List.mem_flatMap]
    exact ⟨day, List.mem_range.mpr hd, List.mem_map.mpr ⟨hour, List.mem_range.mpr hh, rfl⟩⟩
  have h1 : (calculate_baseline pool).lookup (day, hour) =
      bucket_baseline_values pool (day, hour) :=
    lookup_filterMap_keyed all_buckets (fun p => p) (bucket_baseline_values pool)
      (day, hour) hnd hmem
  rw [baselineAt, h1]
  by_cases hS : (bucket_subset pool day hour).isEmpty
  · have hSnil : bucket_subset pool day hour = [] := List.isEmpty_iff.mp hS
    rw [bucket_baseline_values]
    simp only [hS, if_pos]
    rw [hSnil]
    simp [valid_values]
  · rw [bucket_baseline_values]
    simp only [hS, Bool.false_eq_true, if_neg, if_false]
    by_cases hbv : (bucket_baselines (bucket_subset pool day hour)).isEmpty
    · simp only [hbv, if_pos, Option.none_bind]
      have hvv : valid_values (bucket_subset pool day hour) ind = [] := by
        by_contra hv
        have hmean : indicator_mean (bucket_subset pool day hour) ind =
            some (list_mean (valid_values (bucket_subset pool day hour) ind)) := by
          rw [indicator_mean]
          simp only [List.isEmpty_iff, hv, if_neg, if_false]
        have hmem2 : (ind, list_mean (valid_values (bucket_subset pool day hour) ind)) ∈
            bucket_baselines (bucket_subset pool day hour) :=
          List.mem_filterMap.mpr ⟨ind, hm, by rw [hmean]; rfl⟩
        rw [List.isEmpty_iff.mp hbv] at hmem2
        cases hmem2
      rw [if_pos hvv]
    · simp only [hbv, Bool.false_eq_true, if_neg, if_false, Option.some_bind]
      have hnd2 : (all_indicators.map (fun i => i)).Nodup := by decide
      have h2 := lookup_filterMap_keyed all_indicators (fun i => i)
        (indicator_mean (bucket_subset pool day hour)) ind hnd2 hm
      rw [bucket_baselines, h2, indicator_mean]
      by_cases hvv : valid_values (bucket_subset pool day hour) ind = []
      · simp [hvv, list_mean]
      · simp [hvv, list_mean, List.isEmpty_iff]

/-- A one-row data pool used to instantiate the hypotheses of the statements
above at concrete inputs. -/
def pool0 : List Record :=
  [{ date := 0, weekday := 0, hour := 0,
     metrics := fun m => if m == "消耗" then some 5
                         else if m == "整体GMV" then some 3 else none }]

/-- Witness for C4 at a concrete one-row pool. -/
theorem baseline_entry_is_bucket_mean_witness :
    (0:Nat) < 7 ∧ (0:Nat) < 24 ∧ "消耗" ∈ all_indicators ∧
    baselineAt (calculate_baseline pool0) 0 0 "消耗" =
      (if valid_values (bucket_subset pool0 0 0) "消耗" = [] then none
       else some ((valid_values (bucket_subset pool0 0 0) "消耗").sum /
                  (valid_values (bucket_subset pool0 0 0) "消耗").length)) :=
  ⟨by decide, by decide, by decide,
   baseline_entry_is_bucket_mean pool0 0 0 "消耗" (by decide) (by decide) (by decide)⟩

/-! ## Claim C5 -/

/-- C5: every stored standard-progress value lies in `[0,1]` (for data whose
metric values are non-negative, as the data model specifies for additive
metrics); the entry is absent when no historical day produced a positive
daily total for the metric; and the per-day progress fraction at a day's
last recorded hour is exactly 1. -/
theorem standard_progress_invariants :
    (∀ pool : List Record, (∀ r ∈ pool, ∀ m q, r.metrics m = some q → 0 ≤ q) →
       ∀ day hour ind v, standard_progress_at pool day hour ind = some v →
         0 ≤ v ∧ v ≤ 1) ∧
    (∀ (pool : List Record) (day hour : Nat) (ind : String),
       ind ∈ absolute_indicators →
       (∀ dt ∈ pool_dates pool, ¬ 0 < daily_total (day_rows pool dt) ind) →
       standard_progress_at pool day hour ind = none) ∧
    (∀ (pool : List Record) (dt : Nat) (ind : String) (hmax : Nat),
       0 < daily_total (day_rows pool dt) ind →
       (∀ r ∈ day_rows pool dt, r.hour ≤ hmax) →
       cumulative_to (day_rows pool dt) ind hmax / daily_total (day_rows pool dt) ind = 1) := by
  refine ⟨?_, ?_, ?_⟩
  · intro pool hnn day hour ind v hsp
    have hvalnn : ∀ (l : List Record), (∀ r2 ∈ l, r2 ∈ pool) →
        ∀ q ∈ valid_values l ind, 0 ≤ q := by
      intro l hl q hq
      rcases List.mem_filterMap.mp hq with ⟨r2, hr2, hm2⟩
      exact hnn r2 (hl r2 hr2) ind q hm2
    have hbound : ∀ x ∈ progress_samples pool day hour ind, 0 ≤ x ∧ x ≤ 1 := by
      intro x hx
      rw [progress_samples, List.mem_flatMap] at hx
      rcases hx with ⟨dt, hdt, hx⟩
      simp only [List.mem_filterMap] at hx
      rcases hx with ⟨r, hr, hif⟩
      split at hif
      case isTrue htot =>
        cases hif
        have hsubpool : ∀ r2 ∈ day_rows pool dt, r2 ∈ pool :=
          fun r2 h2 => (List.mem_filter.mp h2).1
        have hcumnn : 0 ≤ cumulative_to (day_rows pool dt) ind r.hour := by
          apply List.sum_nonneg
          exact hvalnn _ (fun r2 h2 => hsubpool r2 (List.mem_filter.mp h2).1)
        have hcumle : cumulative_to (day_rows pool dt) ind r.hour ≤
            daily_total (day_rows pool dt) ind := by
          apply sum_le_sum_of_sublist
          · exact List.Sublist.filterMap _ (List.filter_sublist _)
          · exact hvalnn _ hsubpool
        exact ⟨div_nonneg hcumnn htot.le, (div_le_one htot).mpr hcumle⟩
      case isFalse => exact Option.noConfusion hif
    rw [standard_progress_at] at hsp
    split at hsp
    · split at hsp
      · exact Option.noConfusion hsp
      case isFalse hne =>
        cases hsp
        exact list_mean_mem_unit hne hbound
    · exact Option.noConfusion hsp
  · intro pool day hour ind hin hnd
    rw [standard_progress_at, if_pos hin]
    have hnil : progress_samples pool day hour ind = [] := by
      rw [List.eq_nil_iff_forall_not_mem]
      intro x hx
      rw [progress_samples, List.mem_flatMap] at hx
      rcases hx with ⟨dt, hdt, hx⟩
      simp only [List.mem_filterMap] at hx
      rcases hx with ⟨r, hr, hif⟩
      split at hif
      case isTrue htot => exact hnd dt hdt htot
      case isFalse => exact Option.noConfusion hif
    rw [if_pos hnil]
  · intro pool dt ind hmax htot hle
    have hfilter : (day_rows pool dt).filter (fun r => r.hour ≤ hmax) =
        day_rows pool dt :=
      List.filter_eq_self.mpr fun r hr => by simpa using hle r hr
    rw [cumulative_to, hfilter]
    exact div_self (ne_of_gt htot)

/-- A one-day, two-hour data pool used to instantiate C5 concretely. -/
def pool_c5 : List Record :=
  [{ date := 4, weekday := 0, hour := 0,
     metrics := fun m => if m == "消耗" then some 1
                         else if m == "整体GMV" then some 2 else none },
   { date := 4, weekday := 0, hour := 1,
     metrics := fun m => if m == "消耗" then some 3
                         else if m == "整体GMV" then some 2 else none }]

/-- Witness for C5: all three parts instantiated on `pool_c5`. -/
theorem standard_progress_invariants_witness :
    (0 ≤ (1:ℚ) ∧ (1:ℚ) ≤ 1) ∧
    standard_progress_at pool_c5 0 1 "整体GSV" = none ∧
    cumulative_to (day_rows pool_c5 4) "消耗" 1 / daily_total (day_rows pool_c5 4) "消耗" = 1 := by
  have hone : ∀ (a b : ℚ), 0 ≤ a → 0 ≤ b → ∀ (m : String) (q : ℚ),
      (if m == "消耗" then some a else if m == "整体GMV" then some b else none) = some q →
      0 ≤ q := by
    intro a b ha hb m q hq
    split at hq
    · cases hq; exact ha
    · split at hq
      · cases hq; exact hb
      · exact Option.noConfusion hq
  have hnn : ∀ r ∈ pool_c5, ∀ m q, r.metrics m = some q → 0 ≤ q := by
    intro r hr m q hq
    rcases List.mem_cons.mp hr with rfl | hr
    · exact hone 1 2 (by norm_num) (by norm_num) m q hq
    · rcases List.mem_cons.mp hr with rfl | hr
      · exact hone 3 2 (by norm_num) (by norm_num) m q hq
      · cases hr
  refine ⟨standard_progress_invariants.1 pool_c5 hnn 0 1 "消耗" 1 (by decide),
          standard_progress_invariants.2.1 pool_c5 0 1 "整体GSV" (by decide) (by decide),
          standard_progress_invariants.2.2 pool_c5 4 "消耗" 1 (by decide) (by decide)⟩

/-- Every graded (non-degraded) dynamic result carries the positive resolved
baseline in its detail, the rounded quotient as `系数` and the additive
ladder's grade. -/
theorem dynamic_graded_inv (bt pt : MetricTable) (ind : String) (v : ℚ)
    (day hour : Nat) (r : EvalResult) (det : DynamicDetail) (b : ℚ)
    (h1 : dynamic_evaluation bt pt ind v day hour = some r)
    (hdet : r.detail = some det) (hb : det.baseline_val = some b) :
    0 < b ∧ r.coefficient = round2 (v / b) ∧ r.level = dyn_level (v / b) := by
  rcases hres : dynamic_resolve bt pt ind day hour with _ | ⟨b0, sp, fm⟩
  · rw [dynamic_evaluation, hres] at h1
    simp only at h1
    split at h1
    · cases h1
      rw [insufficient_dynamic] at hdet
      simp only at hdet
      cases hdet
      exact Option.noConfusion hb
    · exact Option.noConfusion h1
  · rw [dynamic_evaluation, hres] at h1
    simp only at h1
    split at h1
    case isTrue hpos =>
      cases h1
      simp only at hdet
      cases hdet
      simp only at hb
      cases hb
      exact ⟨hpos, rfl, rfl⟩
    case isFalse hneg =>
      split at h1
      · cases h1
        rw [insufficient_dynamic] at hdet
        simp only at hdet
        cases hdet
        exact Option.noConfusion hb
      · exact Option.noConfusion h1

/-- Every traditional result reporting a `基线值` was graded against a
positive resolved baseline through the ratio ladder. -/
theorem traditional_graded_inv (bt : MetricTable) (ind : String) (v : ℚ)
    (day hour : Nat) (r : EvalResult) (rb : ℚ)
    (h1 : traditional_evaluation bt ind v day hour = some r)
    (hrb : r.baseline_val = some rb) :
    ∃ b : ℚ, 0 < b ∧ rb = round2 b ∧ r.coefficient = round2 (v / b) ∧
      r.level = trad_level (v / b) := by
  rcases hres : traditional_resolve bt ind day hour with ⟨ob, fm⟩
  rcases ob with _ | b0
  · rw [traditional_evaluation, hres] at h1
    simp only at h1
    split at h1
    · cases h1
      exact Option.noConfusion hrb
    · exact Option.noConfusion h1
  · rw [traditional_evaluation, hres] at h1
    simp only at h1
    split at h1
    case isTrue hpos =>
      cases h1
      simp only at hrb
      cases hrb
      exact ⟨b0, hpos, rfl, rfl, rfl⟩
    case isFalse hneg =>
      split at h1
      · cases h1
        exact Option.noConfusion hrb
      · exact Option.noConfusion h1

/-! ## Claim C3 -/

/-- C3: for every evaluated result with a resolved positive baseline `b`, the
grade is determined by the coefficient `v / b` through the additive ladder
(1.5 / 1.2 / 0.8) in the dynamic path and the ratio ladder (1.2 / 1.1 / 0.9)
in the traditional path, the reported `系数` being the rounded quotient. -/
theorem evaluation_coefficient_and_grades :
    (∀ (bt pt : MetricTable) (ind : String) (v : ℚ) (day hour : Nat)
       (r : EvalResult) (det : DynamicDetail) (b : ℚ),
       dynamic_evaluation bt pt ind v day hour = some r →
       r.detail = some det → det.baseline_val = some b →
       0 < b ∧ r.coefficient = round2 (v / b) ∧
         r.level = (if v / b ≥ 1.5 then "优秀" else if v / b ≥ 1.2 then "良好"
                    else if v / b ≥ 0.8 then "正常" else "需改进")) ∧
    (∀ (bt : MetricTable) (ind : String) (v : ℚ) (day hour : Nat)
       (r : EvalResult) (rb : ℚ),
       traditional_evaluation bt ind v day hour = some r → r.baseline_val = some rb →
       ∃ b : ℚ, 0 < b ∧ rb = round2 b ∧ r.coefficient = round2 (v / b) ∧
         r.level = (if v / b ≥ 1.2 then "优秀" else if v / b ≥ 1.1 then "良好"
                    else if v / b ≥ 0.9 then "正常" else "需改进")) :=
  ⟨fun bt pt ind v day hour r det b h1 hdet hb =>
     dynamic_graded_inv bt pt ind v day hour r det b h1 hdet hb,
   fun bt ind v day hour r rb h1 hrb =>
     traditional_graded_inv bt ind v day hour r rb h1 hrb⟩

/-- A table holding exact-bucket baselines for one additive and one ratio
metric, used to instantiate the evaluation statements. -/
def c3_table : MetricTable := fun d h m =>
  if d == 0 && h == 0 && m == "消耗" then some 2
  else if d == 0 && h == 0 && m == "整体ROI" then some 2 else none

/-- The dynamic result on `c3_table` for `消耗 = 3`. -/
def c3_dyn_detail : DynamicDetail :=
  { std_progress := 1/2, baseline_val := some 2, actual_val := 3,
    fallback_method := "精确匹配" }

/-- The dynamic result on `c3_table` for `消耗 = 3` (coefficient 1.5). -/
def c3_dyn_result : EvalResult :=
  { coefficient := round2 (3 / 2), level := "优秀",
    method := "动态评估(精确匹配)", baseline_val := none,
    detail := some c3_dyn_detail }

/-- The traditional result on `c3_table` for `整体ROI = 2.3` (coefficient
1.15, the spec's Scenario 3). -/
def c3_trad_result : EvalResult :=
  { coefficient := round2 (23/10 / 2), level := "良好",
    method := "传统评估(精确匹配)", baseline_val := some (round2 2),
    detail := none }

/-- Witness for C3: both ladders exercised at concrete inputs. -/
theorem evaluation_coefficient_and_grades_witness :
    (0 < (2:ℚ) ∧ c3_dyn_result.coefficient = round2 (3 / 2) ∧
       c3_dyn_result.level = (if (3:ℚ) / 2 ≥ 1.5 then "优秀"
                              else if (3:ℚ) / 2 ≥ 1.2 then "良好"
                              else if (3:ℚ) / 2 ≥ 0.8 then "正常" else "需改进")) ∧
    (∃ b : ℚ, 0 < b ∧ round2 2 = round2 b ∧
       c3_trad_result.coefficient = round2 (23/10 / b) ∧
       c3_trad_result.level = (if (23:ℚ)/10 / b ≥ 1.2 then "优秀"
                               else if (23:ℚ)/10 / b ≥ 1.1 then "良好"
                               else if (23:ℚ)/10 / b ≥ 0.9 then "正常" else "需改进")) :=
  ⟨evaluation_coefficient_and_grades.1 c3_table empty_table "消耗" 3 0 0
     c3_dyn_result c3_dyn_detail 2 (by decide) (by decide) (by decide),
   evaluation_coefficient_and_grades.2 c3_table "整体ROI" (23/10) 0 0
     c3_trad_result (round2 2) (by decide) (by decide)⟩

/-! ## Claim C1 -/

/-- C1 counterexample: for a ratio metric on an engine whose baseline table
is empty (so no tier can yield a positive value) and a positive observed
value 2, `_traditional_evaluation` silently defaults the baseline to 1.0 and
grades `优秀` through the ratio ladder, instead of reporting `数据不足` with
coefficient 1.0 and no defaulted baseline. -/
theorem no_positive_baseline_counterexample :
    traditional_evaluation empty_table "整体ROI" 2 0 0 =
      some { coefficient := 2, level := "优秀", method := "传统评估(默认基线值)",
             baseline_val := some 1, detail := none } ∧
    "优秀" ≠ "数据不足" ∧ (2:ℚ) ≠ 1 :=
  ⟨by decide, by decide, by decide⟩

/-- When no bucket of the table holds a positive value for a ratio metric,
the traditional ladder ends on the default baseline 1. -/
theorem traditional_resolve_default {bt : MetricTable} {ind : String}
    {day hour : Nat} (hd : day < 7) (hh : hour < 24)
    (hprem : ∀ d h2 b, d < 7 → h2 < 24 → bt d h2 ind = some b → b ≤ 0)
    (hratio : ind ∈ ratio_indicators) :
    traditional_resolve bt ind day hour = (some 1, "默认基线值") := by
  have h2 : (List.range 7).findSome? (fun td =>
      (bt td hour ind).bind fun tv =>
        if 0 < tv then some (tv, "同时段回退(星期" ++ toString (td + 1) ++ ")")
        else none) = none := by
    rw [List.findSome?_eq_none_iff]
    intro td htd
    cases hbt : bt td hour ind with
    | none => rfl
    | some tv =>
      have hle := hprem td hour tv (List.mem_range.mp htd) hh hbt
      simp [not_lt.mpr hle]
  have h3 : (List.range 24).findSome? (fun th =>
      (bt day th ind).bind fun tv =>
        if 0 < tv then some (tv, "同日回退(" ++ toString th ++ ":00)")
        else none) = none := by
    rw [List.findSome?_eq_none_iff]
    intro th hth
    cases hbt : bt day th ind with
    | none => rfl
    | some tv =>
      have hle := hprem day th tv hd (List.mem_range.mp hth) hbt
      simp [not_lt.mpr hle]
  have h4 : global_positive_baselines bt ind = [] :=
    global_positive_baselines_nil hprem
  cases h1 : bt day hour ind with
  | none => simp [traditional_resolve, h1, h2, h3, h4, hratio]
  | some b =>
    have hb := hprem day hour b hd hh h1
    simp [traditional_resolve, h1, h2, h3, h4, hratio, hb]

/-- C1 (amended): when no fallback tier yields a positive baseline, the
additive (dynamic) path reports `数据不足` with coefficient 1.0 as claimed;
the ratio (traditional) path instead silently defaults the baseline to 1.0
and grades the observed value through the ratio ladder; in both paths a
graded result's quotient always has a positive resolved baseline, so no
division by zero or by a non-positive baseline occurs. -/
theorem no_positive_baseline_behavior :
    (∀ (bt pt : MetricTable) (ind : String) (v : ℚ) (day hour : Nat),
       day < 7 → hour < 24 →
       (∀ d h2 b, d < 7 → h2 < 24 → bt d h2 ind = some b → b ≤ 0) →
       0 < v →
       dynamic_evaluation bt pt ind v day hour = some (insufficient_dynamic v)) ∧
    (∀ (bt : MetricTable) (ind : String) (v : ℚ) (day hour : Nat),
       day < 7 → hour < 24 →
       (∀ d h2 b, d < 7 → h2 < 24 → bt d h2 ind = some b → b ≤ 0) →
       ind ∈ ratio_indicators → 0 < v →
       traditional_evaluation bt ind v day hour =
         some { coefficient := round2 v, level := trad_level v,
                method := "传统评估(默认基线值)", baseline_val := some 1,
                detail := none }) ∧
    (∀ (bt pt : MetricTable) (ind : String) (v : ℚ) (day hour : Nat)
       (r : EvalResult) (det : DynamicDetail) (b : ℚ),
       dynamic_evaluation bt pt ind v day hour = some r →
       r.detail = some det → det.baseline_val = some b → 0 < b) ∧
    (∀ (bt : MetricTable) (ind : String) (v : ℚ) (day hour : Nat)
       (r : EvalResult) (rb : ℚ),
       traditional_evaluation bt ind v day hour = some r →
       r.baseline_val = some rb →
       ∃ b : ℚ, 0 < b ∧ rb = round2 b ∧ r.coefficient = round2 (v / b)) := by
  refine ⟨?_, ?_, ?_, ?_⟩
  · intro bt pt ind v day hour hd hh hprem hv
    rcases hres : dynamic_resolve bt pt ind day hour with _ | ⟨b0, sp, fm⟩
    · rw [dynamic_evaluation, hres]
      simp only
      rw [if_pos hv]
    · have hb0 : b0 ≤ 0 := by
        rcases dynamic_resolve_cases hd hh hres with ⟨d2, h2, hd2, hh2, hbt⟩ | ⟨hne, _⟩
        · exact hprem d2 h2 b0 hd2 hh2 hbt
        · exact absurd (global_positive_baselines_nil hprem) hne
      rw [dynamic_evaluation, hres]
      simp only
      rw [if_neg (not_lt.mpr hb0), if_pos hv]
  · intro bt ind v day hour hd hh hprem hratio hv
    rw [traditional_evaluation, traditional_resolve_default hd hh hprem hratio]
    simp only
    rw [if_pos (by norm_num : (0:ℚ) < 1), div_one]
    have e2 : round2 1 = 1 := by decide
    rw [e2]
    rfl
  · intro bt pt ind v day hour r det b h1 hdet hb
    exact (dynamic_graded_inv bt pt ind v day hour r det b h1 hdet hb).1
  · intro bt ind v day hour r rb h1 hrb
    rcases traditional_graded_inv bt ind v day hour r rb h1 hrb with
      ⟨b, hbpos, hrb2, hco, _⟩
    exact ⟨b, hbpos, hrb2, hco⟩

/-- Witness for C1 (amended): both paths on the empty table. -/
theorem no_positive_baseline_behavior_witness :
    dynamic_evaluation empty_table empty_table "消耗" 2 0 0 =
      some (insufficient_dynamic 2) ∧
    traditional_evaluation empty_table "客单价" 2 0 0 =
      some { coefficient := round2 2, level := trad_level 2,
             method := "传统评估(默认基线值)", baseline_val := some 1,
             detail := none } :=
  ⟨no_positive_baseline_behavior.1 empty_table empty_table "消耗" 2 0 0
     (by decide) (by decide) (fun d h2 b _ _ heq => Option.noConfusion heq)
     (by decide),
   no_positive_baseline_behavior.2.1 empty_table "客单价" 2 0 0
     (by decide) (by decide) (fun d h2 b _ _ heq => Option.noConfusion heq)
     (by decide) (by decide)⟩

/-! ## Claim C2 -/

/-- A table whose hour-9 row holds a non-positive entry at weekday 0 and a
positive one at weekday 3 for a ratio metric. -/
def c2_cex_table : MetricTable := fun d h m =>
  if h == 9 && m == "整体ROI" then
    (if d == 0 then some 0 else if d == 3 then some 50 else none)
  else none

/-- C2 counterexample: for the ratio metric `整体ROI`, bucket (0, 9) holds an
entry (value 0) at the queried hour, yet resolution for (2, 9) skips it and
uses the weekday-3 value 50 — the claimed "first bucket holding an entry
wins" rule fails on the ratio path, which skips non-positive entries. -/
theorem four_tier_first_entry_counterexample :
    c2_cex_table 0 9 "整体ROI" = some 0 ∧
    traditional_evaluation c2_cex_table "整体ROI" 60 2 9 =
      some { coefficient := 6/5, level := "优秀",
             method := "传统评估(同时段回退(星期4))", baseline_val := some 50,
             detail := none } :=
  ⟨by decide, by decide⟩

/-- Pushing a projection through `findSome?` of mapped hits. -/
theorem findSome?_map_comm {α β γ : Type} (l : List α) (f : α → Option β)
    (g : α → β → γ) (F : γ → β) (hF : ∀ a b, F (g a b) = b) :
    ((l.findSome? fun a => (f a).map (g a)).map F) = l.findSome? f := by
  induction l with
  | nil => rfl
  | cons x xs ih =>
    rw [List.findSome?_cons, List.findSome?_cons]
    cases hx : f x with
    | none => simpa using ih
    | some b => simp [hF]

/-- The baseline table of the spec's Scenario 2: hour 9 has a `消耗` baseline
of 50 on weekday 3 only. -/
def c2_table : MetricTable := fun d h m =>
  if d == 3 && h == 9 && m == "消耗" then some 50 else none

/-- C2 (amended): the additive (dynamic) resolution follows exactly the
claimed four-tier ladder — first *present* entry wins at tiers 1-3, mean of
positive entries at tier 4, first success stops the search (stated as
agreement with `claim_resolve`, the ladder written from the spec's words);
the scenario holds: with no (Wednesday,9) baseline and a (Thursday,9) `消耗`
baseline of 50, the query (Wednesday,9) `消耗`=60 resolves via tier 2 to
baseline 50, coefficient 1.2, grade `良好`.  (On the ratio path tiers 2-3
skip non-positive entries, a non-positive tier-1 entry does not stop the
ladder, and a fifth default tier exists — see the counterexample.) -/
theorem dynamic_resolution_four_tiers :
    (∀ (bt pt : MetricTable) (ind : String) (day hour : Nat),
       (dynamic_resolve bt pt ind day hour).map (fun r => r.1) =
         claim_resolve bt ind day hour) ∧
    (dynamic_evaluation c2_table empty_table "消耗" 60 2 9 =
       some { coefficient := 6/5, level := "良好",
              method := "动态评估(同时段回退(星期4))", baseline_val := none,
              detail := some { std_progress := 1/2, baseline_val := some 50,
                               actual_val := 60,
                               fallback_method := "同时段回退(星期4)" } }) := by
  constructor
  · intro bt pt ind day hour
    have e2 := findSome?_map_comm (List.range 7) (fun td => bt td hour ind)
      (fun td b => (b, pt td hour ind, "同时段回退(星期" ++ toString (td + 1) ++ ")"))
      (fun r => r.1) (fun a b => rfl)
    have e3 := findSome?_map_comm (List.range 24) (fun th => bt day th ind)
      (fun th b => (b, pt day th ind, "同日回退(" ++ toString th ++ ":00)"))
      (fun r => r.1) (fun a b => rfl)
    rw [dynamic_resolve, claim_resolve]
    cases h1 : bt day hour ind with
    | some b => rfl
    | none =>
      cases h2 : (List.range 7).findSome? (fun td => bt td hour ind) with
      | some b =>
        rw [h2] at e2
        rcases Option.map_eq_some'.mp e2 with ⟨r2, hr2, hfst⟩
        rw [hr2]
        simp only [Option.map_some']
        rw [hfst]
      | none =>
        rw [h2] at e2
        rw [Option.map_eq_none'] at e2
        rw [e2]
        cases h3 : (List.range 24).findSome? (fun th => bt day th ind) with
        | some b =>
          rw [h3] at e3
          rcases Option.map_eq_some'.mp e3 with ⟨r3, hr3, hfst⟩
          rw [hr3]
          simp only [Option.map_some']
          rw [hfst]
        | none =>
          rw [h3] at e3
          rw [Option.map_eq_none'] at e3
          rw [e3]
          by_cases hvs : (global_positive_baselines bt ind).isEmpty
          · simp [hvs]
          · simp [hvs]
  · decide

/-! ## Claim C10 -/

/-- A table whose exact bucket (2, 9) stores non-positive baselines while
(3, 9) stores positive ones, for one additive and one ratio metric. -/
def c10_table : MetricTable := fun d h m =>
  if d == 2 && h == 9 then
    (if m == "消耗" then some 0 else if m == "整体ROI" then some 0 else none)
  else if d == 3 && h == 9 then
    (if m == "消耗" then some 50 else if m == "整体ROI" then some 50 else none)
  else none

/-- C10: on the dynamic path a non-positive exact-bucket entry is accepted by
tier 1 and blocks tiers 2-4, so a positive observed value degrades to
`数据不足` with coefficient 1.0 whatever the rest of the table holds; on the
concrete `c10_table` this happens even though (3, 9) holds 50, while the
ratio path on the same table skips its non-positive exact entry and grades
against the weekday-3 value 50. -/
theorem dynamic_tier1_accepts_nonpositive :
    (∀ (bt pt : MetricTable) (ind : String) (v : ℚ) (day hour : Nat) (b : ℚ),
       bt day hour ind = some b → b ≤ 0 → 0 < v →
       dynamic_evaluation bt pt ind v day hour = some (insufficient_dynamic v)) ∧
    (dynamic_evaluation c10_table empty_table "消耗" 60 2 9 =
       some (insufficient_dynamic 60)) ∧
    c10_table 3 9 "消耗" = some 50 ∧
    (traditional_evaluation c10_table "整体ROI" 60 2 9 =
       some { coefficient := 6/5, level := "优秀",
              method := "传统评估(同时段回退(星期4))", baseline_val := some 50,
              detail := none }) ∧
    c10_table 2 9 "整体ROI" = some 0 := by
  refine ⟨?_, by decide, by decide, by decide, by decide⟩
  intro bt pt ind v day hour b hbt hle hv
  rw [dynamic_evaluation, dynamic_resolve, hbt]
  simp only
  rw [if_neg (not_lt.mpr hle), if_pos hv]

/-- Witness for C10's universal part at the concrete table. -/
theorem dynamic_tier1_accepts_nonpositive_witness :
    dynamic_evaluation c10_table empty_table "消耗" 60 2 9 =
      some (insufficient_dynamic 60) :=
  dynamic_tier1_accepts_nonpositive.1 c10_table empty_table "消耗" 60 2 9 0
    (by decide) (by decide) (by decide)

/-! ## Claim C6 -/

/-- C6: preprocessing returns an empty result when any of the three required
structural columns is absent (after aliasing); and a time-parseable row
survives cleaning exactly when both key financial metrics (`消耗`,
`整体GMV`) are non-null and non-zero — zeros in any other metric are
retained. -/
theorem preprocess_required_and_key_metrics (t : RawTable) :
    ((∃ f ∈ required_fields, f ∉ t.cols.map map_col) → preprocess_data t = []) ∧
    (∀ rec : Record, rec ∈ preprocess_data t ↔
       ((∀ f ∈ required_fields, f ∈ t.cols.map map_col) ∧
        ∃ r ∈ t.rows, r.date = some rec.date ∧ r.hour = some rec.hour ∧
          rec.weekday = dayofweek rec.date ∧ rec.metrics = r.cells ∧
          key_financial_ok rec.metrics = true)) := by
  constructor
  · rintro ⟨f, hf, hnot⟩
    have hcond : ¬ (required_fields.all
        (fun f => (t.cols.map map_col).contains f) = true) := by
      intro hall
      rw [List.all_eq_true] at hall
      exact hnot (by simpa using hall f hf)
    rw [preprocess_data, if_neg hcond]
  · rintro ⟨rd, rwk, rh, rm⟩
    by_cases hreq : required_fields.all
        (fun f => (t.cols.map map_col).contains f) = true
    · rw [preprocess_data, if_pos hreq]
      constructor
      · intro hmem
        rcases List.mem_filter.mp hmem with ⟨hmem2, hkey⟩
        rcases List.mem_filterMap.mp hmem2 with ⟨r, hr, hpf⟩
        refine ⟨fun f hf => by simpa using List.all_eq_true.mp hreq f hf, r, hr, ?_⟩
        cases hd : r.date with
        | none => rw [hd] at hpf; exact Option.noConfusion hpf
        | some dt =>
          cases hh : r.hour with
          | none => rw [hd, hh] at hpf; exact Option.noConfusion hpf
          | some hh2 =>
            rw [hd, hh] at hpf
            simp only at hpf
            cases hpf
            exact ⟨rfl, rfl, rfl, rfl, hkey⟩
      · rintro ⟨hall, r, hr, hdate, hhour, hwd, hmet, hkey⟩
        apply List.mem_filter.mpr
        refine ⟨List.mem_filterMap.mpr ⟨r, hr, ?_⟩, hkey⟩
        rw [hdate, hhour]
        simp only at hwd hmet ⊢
        rw [hwd, hmet]
    · rw [preprocess_data, if_neg hreq]
      constructor
      · intro h
        exact absurd h (List.not_mem_nil _)
      · rintro ⟨hall, -⟩
        exact absurd (List.all_eq_true.mpr fun f hf => by simpa using hall f hf) hreq

/-- A raw table lacking the `主播` column. -/
def t_bad : RawTable := { cols := ["日期", "小时"], rows := [] }

/-- Cells of a concrete raw row: valid key financial metrics and an
exactly-zero value in the additive metric `成交人数`. -/
def cells0 : String → Option ℚ := fun m =>
  if m == "消耗" then some 5 else if m == "整体GMV" then some 3
  else if m == "成交人数" then some 0 else none

/-- A concrete parseable raw row carrying `cells0`. -/
def row0 : RawRow := { date := some 0, hour := some 10, cells := cells0 }

/-- A raw table with all required columns (`时间段` aliasing `小时`). -/
def t_good : RawTable :=
  { cols := ["日期", "时间段", "主播", "消耗", "整体GMV", "成交人数"], rows := [row0] }

/-- The cleaned record produced from `row0`. -/
def rec0 : Record :=
  { date := 0, weekday := dayofweek 0, hour := 10, metrics := cells0 }

/-- Witness for C6: the missing-column table yields an empty result, and the
row with `成交人数 = 0` but valid key financial metrics is retained. -/
theorem preprocess_required_and_key_metrics_witness :
    preprocess_data t_bad = [] ∧ rec0 ∈ preprocess_data t_good ∧
    rec0.metrics "成交人数" = some 0 :=
  ⟨(preprocess_required_and_key_metrics t_bad).1 ⟨"主播", by decide, by decide⟩,
   ((preprocess_required_and_key_metrics t_good).2 rec0).mpr
     ⟨by decide, row0, List.mem_singleton.mpr rfl, rfl, rfl, rfl, rfl, by decide⟩,
   by decide⟩

/-! ## Claim C7 -/

/-- Reduction of `diag_step` at a numeric value (the inner `match` unfolded,
proved by reflexivity). -/
theorem diag_step_qNum_eq (bt pt : MetricTable) (day hour : Nat)
    (indicator : String) (value : ℚ) (acc : DiagAcc) :
    diag_step bt pt day hour indicator (QVal.qNum value) acc =
      (if structural_keys.contains indicator then acc
       else if map_col indicator ∈ absolute_indicators then
         match dynamic_evaluation bt pt (map_col indicator) value day hour with
         | some r => { acc with results := (indicator, r) :: acc.results,
                                dyn := indicator :: acc.dyn }
         | none => { acc with skipped := (indicator ++ " (动态评估失败)") :: acc.skipped }
       else if map_col indicator ∈ ratio_indicators then
         match traditional_evaluation bt (map_col indicator) value day hour with
         | some r => { acc with results := (indicator, r) :: acc.results,
                                trad := indicator :: acc.trad }
         | none => { acc with skipped := (indicator ++ " (传统评估失败)") :: acc.skipped }
       else { acc with skipped := (indicator ++ " (未在配置中分类)") :: acc.skipped }) := rfl

/-- A `dyn` member of a step was either pushed there (and is classified
additive) or was already in the accumulator. -/
theorem diag_step_dyn (bt pt : MetricTable) (day hour : Nat)
    (indicator : String) (v : QVal) (acc : DiagAcc) (x : String)
    (hx : x ∈ (diag_step bt pt day hour indicator v acc).dyn) :
    (x = indicator ∧ map_col indicator ∈ absolute_indicators) ∨ x ∈ acc.dyn := by
  rw [diag_step.eq_def] at hx
  split at hx
  · exact Or.inr hx
  · cases v with
    | qEmpty => exact Or.inr hx
    | qBad => exact Or.inr hx
    | qNum value =>
      simp only at hx
      split at hx
      case isTrue habs =>
        split at hx
        · rcases List.mem_cons.mp hx with rfl | hx2
          · exact Or.inl ⟨rfl, habs⟩
          · exact Or.inr hx2
        · exact Or.inr hx
      case isFalse habs =>
        split at hx
        · split at hx
          · exact Or.inr hx
          · exact Or.inr hx
        · exact Or.inr hx

/-- A `trad` member of a step was either pushed there (ratio-classified, not
additive) or was already in the accumulator. -/
theorem diag_step_trad (bt pt : MetricTable) (day hour : Nat)
    (indicator : String) (v : QVal) (acc : DiagAcc) (x : String)
    (hx : x ∈ (diag_step bt pt day hour indicator v acc).trad) :
    (x = indicator ∧ map_col indicator ∈ ratio_indicators ∧
       map_col indicator ∉ absolute_indicators) ∨ x ∈ acc.trad := by
  rw [diag_step.eq_def] at hx
  split at hx
  · exact Or.inr hx
  · cases v with
    | qEmpty => exact Or.inr hx
    | qBad => exact Or.inr hx
    | qNum value =>
      simp only at hx
      split at hx
      case isTrue habs =>
        split at hx
        · exact Or.inr hx
        · exact Or.inr hx
      case isFalse habs =>
        split at hx
        case isTrue hrat =>
          split at hx
          · rcases List.mem_cons.mp hx with rfl | hx2
            · exact Or.inl ⟨rfl, hrat, habs⟩
            · exact Or.inr hx2
          · exact Or.inr hx
        case isFalse => exact Or.inr hx

/-- A results entry of a step carries a classified metric or was already in
the accumulator. -/
theorem diag_step_results (bt pt : MetricTable) (day hour : Nat)
    (indicator : String) (v : QVal) (acc : DiagAcc) (x : String) (r : EvalResult)
    (hx : (x, r) ∈ (diag_step bt pt day hour indicator v acc).results) :
    (x = indicator ∧ (map_col indicator ∈ absolute_indicators ∨
       map_col indicator ∈ ratio_indicators)) ∨ (x, r) ∈ acc.results := by
  rw [diag_step.eq_def] at hx
  split at hx
  · exact Or.inr hx
  · cases v with
    | qEmpty => exact Or.inr hx
    | qBad => exact Or.inr hx
    | qNum value =>
      simp only at hx
      split at hx
      case isTrue habs =>
        split at hx
        · rcases List.mem_cons.mp hx with heq | hx2
          · cases heq; exact Or.inl ⟨rfl, Or.inl habs⟩
          · exact Or.inr hx2
        · exact Or.inr hx
      case isFalse habs =>
        split at hx
        case isTrue hrat =>
          split at hx
          · rcases List.mem_cons.mp hx with heq | hx2
            · cases heq; exact Or.inl ⟨rfl, Or.inr hrat⟩
            · exact Or.inr hx2
          · exact Or.inr hx
        case isFalse => exact Or.inr hx

/-- A step never drops anything from the skipped list. -/
theorem diag_step_skipped_mono (bt pt : MetricTable) (day hour : Nat)
    (indicator : String) (v : QVal) (acc : DiagAcc) (y : String)
    (hy : y ∈ acc.skipped) :
    y ∈ (diag_step bt pt day hour indicator v acc).skipped := by
  rw [diag_step.eq_def]
  split
  · exact hy
  · cases v with
    | qEmpty => exact List.mem_cons_of_mem _ hy
    | qBad => exact List.mem_cons_of_mem _ hy
    | qNum value =>
      simp only
      split
      · split
        · exact hy
        · exact List.mem_cons_of_mem _ hy
      · split
        · split
          · exact hy
          · exact List.mem_cons_of_mem _ hy
        · exact List.mem_cons_of_mem _ hy

/-- A non-structural, numeric, unclassified metric is pushed onto the
skipped list with the `未在配置中分类` label. -/
theorem diag_step_unclassified (bt pt : MetricTable) (day hour : Nat)
    (indicator : String) (q : ℚ) (acc : DiagAcc)
    (hstruct : indicator ∉ structural_keys)
    (habs : map_col indicator ∉ absolute_indicators)
    (hrat : map_col indicator ∉ ratio_indicators) :
    (indicator ++ " (未在配置中分类)") ∈
      (diag_step bt pt day hour indicator (QVal.qNum q) acc).skipped := by
  rw [diag_step_qNum_eq]
  rw [if_neg (by simpa using hstruct), if_neg habs, if_neg hrat]
  exact List.mem_cons_self _ _

/-- Classification of the loop's accumulators: every dynamic entry is
additive-classified, every traditional entry is ratio-classified (and not
additive), and every evaluated-results key is classified. -/
theorem diag_loop_classified (bt pt : MetricTable) (day hour : Nat) :
    ∀ l : List (String × QVal),
      (∀ x ∈ (diagnosis_loop bt pt day hour l).dyn,
         map_col x ∈ absolute_indicators) ∧
      (∀ x ∈ (diagnosis_loop bt pt day hour l).trad,
         map_col x ∈ ratio_indicators ∧ map_col x ∉ absolute_indicators) ∧
      (∀ (x : String) (r : EvalResult),
         (x, r) ∈ (diagnosis_loop bt pt day hour l).results →
         map_col x ∈ absolute_indicators ∨ map_col x ∈ ratio_indicators) := by
  intro l
  induction l with
  | nil =>
    refine ⟨?_, ?_, ?_⟩
    · intro x hx; cases hx
    · intro x hx; cases hx
    · intro x r hx; cases hx
  | cons p rest ih =>
    rcases p with ⟨indicator, v⟩
    rcases ih with ⟨ih1, ih2, ih3⟩
    refine ⟨?_, ?_, ?_⟩
    · intro x hx
      rcases diag_step_dyn bt pt day hour indicator v _ x hx with ⟨rfl, hcl⟩ | hx2
      · exact hcl
      · exact ih1 x hx2
    · intro x hx
      rcases diag_step_trad bt pt day hour indicator v _ x hx with ⟨rfl, hcl⟩ | hx2
      · exact hcl
      · exact ih2 x hx2
    · intro x r hx
      rcases diag_step_results bt pt day hour indicator v _ x r hx with ⟨rfl, hcl⟩ | hx2
      · exact hcl
      · exact ih3 x r hx2

/-- An unclassified, numerically valued, non-structural query metric always
lands in the loop's skipped list with the `未在配置中分类` label. -/
theorem diag_loop_unclassified_skip (bt pt : MetricTable) (day hour : Nat) :
    ∀ (l : List (String × QVal)) (ind : String) (q : ℚ),
      (ind, QVal.qNum q) ∈ l → ind ∉ structural_keys →
      map_col ind ∉ absolute_indicators → map_col ind ∉ ratio_indicators →
      (ind ++ " (未在配置中分类)") ∈ (diagnosis_loop bt pt day hour l).skipped := by
  intro l
  induction l with
  | nil => intro ind q hmem; cases hmem
  | cons p rest ih =>
    intro ind q hmem hstruct habs hrat
    rcases p with ⟨indicator, v⟩
    rcases List.mem_cons.mp hmem with heq | hmem2
    · cases heq
      exact diag_step_unclassified bt pt day hour ind q _ hstruct habs hrat
    · exact diag_step_skipped_mono bt pt day hour indicator v _ _
        (ih ind q hmem2 hstruct habs hrat)

/-- C7: a query metric whose aliased name is in neither classification list
is reported in the skipped list as `未在配置中分类`, excluded from the
evaluated-results mapping and from both evaluated-indicator lists, and the
success rate equals (evaluated count) / (total input count), the metric
counting toward the denominator only. -/
theorem unclassified_metric_skipped
    (pool : List Record) (bt pt : MetricTable) (day hour : Nat)
    (query : List (String × QVal)) (ind : String) (q : ℚ)
    (hmem : (ind, QVal.qNum q) ∈ query)
    (hstruct : ind ∉ structural_keys)
    (habs : map_col ind ∉ absolute_indicators)
    (hratio : map_col ind ∉ ratio_indicators) :
    ∃ dr : DiagnosisResult,
      real_time_diagnosis ⟨pool, bt, pt, true⟩ day hour query = DiagOutcome.ok dr ∧
      (ind ++ " (未在配置中分类)") ∈ dr.skipped_inds ∧
      (∀ r : EvalResult, (ind, r) ∉ dr.results) ∧
      ind ∉ dr.dynamic_inds ∧ ind ∉ dr.traditional_inds ∧
      dr.evaluated = dr.dynamic_inds.length + dr.traditional_inds.length ∧
      ind ∈ input_indicators query ∧
      dr.total_input = (input_indicators query).length ∧
      dr.success_rate = (dr.evaluated : ℚ) / (dr.total_input : ℚ) := by
  have hinput : ind ∈ input_indicators query := by
    rw [input_indicators]
    exact List.mem_map.mpr ⟨(ind, QVal.qNum q),
      List.mem_filter.mpr ⟨hmem, by simpa using hstruct⟩, rfl⟩
  have hlen : ¬ (input_indicators query).length = 0 := by
    have := List.length_pos.mpr (List.ne_nil_of_mem hinput)
    omega
  refine ⟨_, rfl, ?_, ?_, ?_, ?_, rfl, hinput, rfl, ?_⟩
  · exact diag_loop_unclassified_skip bt pt day hour query ind q
      hmem hstruct habs hratio
  · intro r hr
    rcases (diag_loop_classified bt pt day hour query).2.2 ind r hr with h | h
    · exact habs h
    · exact hratio h
  · intro hx
    exact habs ((diag_loop_classified bt pt day hour query).1 ind hx)
  · intro hx
    exact hratio (((diag_loop_classified bt pt day hour query).2.1 ind hx).1)
  · dsimp only
    rw [if_neg hlen]

/-- Witness for C7 on a one-metric query with an unclassified name. -/
theorem unclassified_metric_skipped_witness :
    ∃ dr : DiagnosisResult,
      real_time_diagnosis ⟨[], empty_table, empty_table, true⟩ 0 0
        [("神秘指标", QVal.qNum 5)] = DiagOutcome.ok dr ∧
      ("神秘指标" ++ " (未在配置中分类)") ∈ dr.skipped_inds ∧
      (∀ r : EvalResult, ("神秘指标", r) ∉ dr.results) ∧
      "神秘指标" ∉ dr.dynamic_inds ∧ "神秘指标" ∉ dr.traditional_inds ∧
      dr.evaluated = dr.dynamic_inds.length + dr.traditional_inds.length ∧
      "神秘指标" ∈ input_indicators [("神秘指标", QVal.qNum 5)] ∧
      dr.total_input = (input_indicators [("神秘指标", QVal.qNum 5)]).length ∧
      dr.success_rate = (dr.evaluated : ℚ) / (dr.total_input : ℚ) :=
  unclassified_metric_skipped [] empty_table empty_table 0 0
    [("神秘指标", QVal.qNum 5)] "神秘指标" 5
    (by decide) (by decide) (by decide) (by decide)

/-! ## Claim C8 -/

/-- C8: when the input cannot be parsed at all, or preprocessing leaves zero
rows (in particular when a required column is missing), `initialize_system`
returns failure and leaves the state untouched, and a freshly constructed
engine that went through such a failed initialization still answers every
diagnosis query with the `系统未初始化` error. -/
theorem init_failure_keeps_uninitialized (e : EngineState) (inp : InitInput)
    (hfail : inp = InitInput.unparseable ∨
      ∃ t, inp = InitInput.table t ∧ preprocess_data t = []) :
    initialize_system e inp = (e, false) ∧
    ∀ (day hour : Nat) (query : List (String × QVal)),
      real_time_diagnosis (initialize_system fresh_engine inp).1 day hour query =
        DiagOutcome.error "系统未初始化" := by
  have hkey : ∀ e2 : EngineState, initialize_system e2 inp = (e2, false) := by
    intro e2
    rcases hfail with rfl | ⟨t, rfl, hempty⟩
    · rfl
    · rw [initialize_system]
      rw [if_pos (by simp [hempty])]
  refine ⟨hkey e, ?_⟩
  intro day hour query
  rw [hkey fresh_engine]
  rfl

/-- Witness for C8: a concrete unreadable input on a fresh engine. -/
theorem init_failure_keeps_uninitialized_witness :
    initialize_system fresh_engine InitInput.unparseable = (fresh_engine, false) ∧
    real_time_diagnosis
        (initialize_system fresh_engine InitInput.unparseable).1 0 0 [] =
      DiagOutcome.error "系统未初始化" :=
  ⟨(init_failure_keeps_uninitialized fresh_engine InitInput.unparseable
      (Or.inl rfl)).1,
   (init_failure_keeps_uninitialized fresh_engine InitInput.unparseable
      (Or.inl rfl)).2 0 0 []⟩

/-! ## Claim C9 -/

/-- C9: loading a saved snapshot reproduces the data pool, both tables and
the initialized flag exactly, so the reloaded engine answers every diagnosis
query exactly as the pre-save engine did (the wall-clock `诊断时间` field is
outside the model). -/
theorem save_load_round_trip (e : EngineState) (now : Nat) :
    load_state (save_state e now) = e ∧
    ∀ (day hour : Nat) (query : List (String × QVal)),
      real_time_diagnosis (load_state (save_state e now)) day hour query =
        real_time_diagnosis e day hour query := by
  have h : load_state (save_state e now) = e := by
    cases e
    rfl
  exact ⟨h, fun day hour query => by rw [h]⟩
